import Mathlib

/-!
Verification development for the HTML business-listing extractor
(`src/html_extractor.py` of the GoogleMapExtractor repository).

The extractor walks pre-parsed HTML fragments of a Google-Maps results
page, pulls typed fields out of each fragment into a Python dict, applies
placeholder defaults, infers a city from the free-text address, and folds
the per-fragment results into a batch report.

Modelling conventions:
* A parsed listing fragment is abstracted as the tuple of texts and
  attributes the extractor actually reads (`Fragment` below); the
  BeautifulSoup queries that produce those texts are the fragment's
  constructor and are not re-modelled.
* Python dicts are modelled as insertion-ordered association lists
  (`Dict`), with `dset` mirroring `d[k] = v` and `dsetdefault` mirroring
  `d.setdefault(k, v)`.
* Python `str.strip`/`str.lower`/`str.title` are modelled for ASCII and
  Latin-1 text (the alphabet of the source's markers, keywords and city
  names); `float()` is modelled over exact rationals for finite decimal
  literals (the special values inf/nan and IEEE rounding are outside the
  extractor's data domain and are not modelled).
* The regular expressions of the source (`\((\d+)\)`, the postal-code
  city pattern, `\b\d{5}\b`) are embedded as explicit scanners with
  Python's leftmost-match semantics, including word boundaries.
-/

set_option maxRecDepth 4096

/-! ### Python string primitives -/

/-- Whitespace as recognised by Python's `str.strip()` (ASCII range). -/
def pySpace (c : Char) : Bool :=
  c = ' ' || c = '\t' || c = '\n' || c = '\r' || c = '\x0b' || c = '\x0c'

/-- `str.strip()` on a character list. -/
def pyStripL (cs : List Char) : List Char :=
  ((cs.dropWhile pySpace).reverse.dropWhile pySpace).reverse

/-- `str.strip()`. -/
def pyStrip (s : String) : String :=
  String.mk (pyStripL s.data)

/-- `str.lower()` for one character, covering ASCII `A`-`Z` and the
Latin-1 uppercase letters `À`-`Þ` (excluding `×`). -/
def pyCharLower (c : Char) : Char :=
  if 'A' ≤ c && c ≤ 'Z' then Char.ofNat (c.toNat + 32)
  else if 0xC0 ≤ c.toNat && c.toNat ≤ 0xDE && c.toNat ≠ 0xD7 then Char.ofNat (c.toNat + 32)
  else c

/-- `str.upper()` for one character, covering ASCII `a`-`z` and the
Latin-1 lowercase letters `à`-`þ` (excluding `÷`). -/
def pyCharUpper (c : Char) : Char :=
  if 'a' ≤ c && c ≤ 'z' then Char.ofNat (c.toNat - 32)
  else if 0xE0 ≤ c.toNat && c.toNat ≤ 0xFE && c.toNat ≠ 0xF7 then Char.ofNat (c.toNat - 32)
  else c

/-- `str.lower()` on a character list. -/
def pyLowerL (cs : List Char) : List Char :=
  cs.map pyCharLower

/-- Alphabetic character (ASCII plus Latin-1 letters), used for `str.title()`. -/
def pyIsAlpha (c : Char) : Bool :=
  c.isAlpha || (0xC0 ≤ c.toNat && c.toNat ≤ 0xFF && c.toNat ≠ 0xD7 && c.toNat ≠ 0xF7)

/-- Word character for Python's regex `\w` / `\b` (ASCII alphanumerics,
underscore, Latin-1 letters). -/
def pyWordChar (c : Char) : Bool :=
  c.isAlphanum || c = '_' ||
    (0xC0 ≤ c.toNat && c.toNat ≤ 0xFF && c.toNat ≠ 0xD7 && c.toNat ≠ 0xF7)

/-- `str.title()` worker: uppercase an alphabetic character that follows a
non-alphabetic one, lowercase the rest. -/
def pyTitleGo (prevAlpha : Bool) : List Char → List Char
  | [] => []
  | c :: rest =>
    let c' := if pyIsAlpha c then (if prevAlpha then pyCharLower c else pyCharUpper c) else c
    c' :: pyTitleGo (pyIsAlpha c) rest

/-- `str.title()`. -/
def pyTitle (s : String) : String :=
  String.mk (pyTitleGo false s.data)

/-- `str.isdigit()` on a character list: non-empty and all digits. -/
def pyIsDigitL (cs : List Char) : Bool :=
  !cs.isEmpty && cs.all Char.isDigit

/-- Substring containment, Python's `needle in hay`. -/
def listContainsSub (hay needle : List Char) : Bool :=
  needle.isPrefixOf hay ||
    match hay with
    | [] => false
    | _ :: t => listContainsSub t needle

/-- `str.split(sep)` for a one-character separator (Python semantics:
`"".split(sep) = [""]`, separators at the ends produce empty segments). -/
def splitOnCharL (sep : Char) : List Char → List (List Char)
  | [] => [[]]
  | c :: rest =>
    let r := splitOnCharL sep rest
    if c = sep then [] :: r
    else
      match r with
      | h :: t => (c :: h) :: t
      | [] => [[c]]

/-- `str.split()` with no argument: split on whitespace runs, dropping
empty segments.  `cur` accumulates the current token in reverse. -/
def pySplitWsGo (cur : List Char) : List Char → List (List Char)
  | [] => if cur.isEmpty then [] else [cur.reverse]
  | c :: rest =>
    if pySpace c then
      if cur.isEmpty then pySplitWsGo [] rest
      else cur.reverse :: pySplitWsGo [] rest
    else pySplitWsGo (c :: cur) rest

/-- `str.split()` with no argument. -/
def pySplitWs (cs : List Char) : List (List Char) :=
  pySplitWsGo [] cs

/-- `" ".join(parts)`. -/
def joinSpace (parts : List (List Char)) : List Char :=
  List.intercalate [' '] parts

/-- `text.replace(',', '.')` (single-character replacement). -/
def replaceCommaDot (cs : List Char) : List Char :=
  cs.map (fun c => if c = ',' then '.' else c)

/-! ### Python `float()` on finite decimal literals -/

/-- Parse a run of digits allowing single underscores between digits
(Python numeric-literal grammar).  Returns the value, the number of
digits consumed, and the rest of the input. -/
def parseDigitsCore (acc cnt : Nat) : List Char → Nat × Nat × List Char
  | [] => (acc, cnt, [])
  | c :: rest =>
    if c.isDigit then parseDigitsCore (acc * 10 + (c.toNat - 48)) (cnt + 1) rest
    else if c = '_' then
      match rest with
      | d :: rest' =>
        if d.isDigit then parseDigitsCore (acc * 10 + (d.toNat - 48)) (cnt + 1) rest'
        else (acc, cnt, c :: rest)
      | [] => (acc, cnt, c :: rest)
    else (acc, cnt, c :: rest)

/-- Model of Python `float(s)` for finite decimal literals
(`[ws] [sign] digits [. digits] [(e|E) [sign] digits] [ws]`), returning
the exact rational value.  Inputs outside this grammar (including the
special values `inf`/`nan`, which cannot arise from the extractor's
rating markup) yield `none`, as `float` raises `ValueError` on the
grammar's complement. -/
def pyFloat? (s : String) : Option Rat :=
  let cs := pyStripL s.data
  let (sign, cs1) : Int × List Char :=
    match cs with
    | '+' :: r => (1, r)
    | '-' :: r => (-1, r)
    | r => (1, r)
  let (ip, ic, cs2) := parseDigitsCore 0 0 cs1
  let (fp, fc, cs3) : Nat × Nat × List Char :=
    match cs2 with
    | '.' :: r => parseDigitsCore 0 0 r
    | r => (0, 0, r)
  if ic + fc = 0 then none
  else
    let base : Rat := (sign : Rat) * ((ip : Rat) + (fp : Rat) / ((10 : Rat) ^ fc))
    match cs3 with
    | [] => some base
    | e :: r =>
      if e = 'e' || e = 'E' then
        let (epos, r1) : Bool × List Char :=
          match r with
          | '+' :: rr => (true, rr)
          | '-' :: rr => (false, rr)
          | rr => (true, rr)
        let (ev, ec, r2) := parseDigitsCore 0 0 r1
        if ec = 0 then none
        else
          match r2 with
          | [] => some (if epos then base * (10 : Rat) ^ ev else base / (10 : Rat) ^ ev)
          | _ => none
      else none

/-! ### Python dicts as insertion-ordered association lists -/

/-- A Python value stored in the business dict. -/
inductive FieldVal where
  | vStr (s : String)
  | vFloat (q : Rat)
  | vInt (n : Nat)
  | vNone
  deriving DecidableEq

export FieldVal (vStr vFloat vInt vNone)

/-- The business dict. -/
abbrev Dict := List (String × FieldVal)

/-- `d[k]`, as an option. -/
def dget? (d : Dict) (k : String) : Option FieldVal :=
  match d with
  | [] => none
  | (k', v) :: rest => if k' = k then some v else dget? rest k

/-- `d[k] = v`: replace in place if the key exists, else append. -/
def dset (d : Dict) (k : String) (v : FieldVal) : Dict :=
  match d with
  | [] => [(k, v)]
  | (k', v') :: rest => if k' = k then (k, v) :: rest else (k', v') :: dset rest k v

/-- `d.setdefault(k, v)`. -/
def dsetdefault (d : Dict) (k : String) (v : FieldVal) : Dict :=
  if (dget? d k).isSome then d else d ++ [(k, v)]

/-- Python truthiness of `d.get(k)` (`None`, `""`, `0` and a missing key
are falsy). -/
def pyTruthy : Option FieldVal → Bool
  | none => false
  | some (vStr s) => s ≠ ""
  | some (vFloat q) => q ≠ 0
  | some (vInt n) => n ≠ 0
  | some vNone => false

theorem dget?_dset_self (d : Dict) (k : String) (v : FieldVal) :
    dget? (dset d k v) k = some v := by
  induction d with
  | nil => simp [dset, dget?]
  | cons hd tl ih =>
    obtain ⟨k', v'⟩ := hd
    by_cases h : k' = k <;> simp [dset, dget?, h, ih]

theorem dget?_dset_ne (d : Dict) (k' k : String) (v : FieldVal) (h : k' ≠ k) :
    dget? (dset d k' v) k = dget? d k := by
  induction d with
  | nil => simp [dset, dget?, h]
  | cons hd tl ih =>
    obtain ⟨k0, v0⟩ := hd
    by_cases h0 : k0 = k' <;> simp [dset, dget?, h0, h, ih]

theorem dget?_append_single (d : Dict) (k' k : String) (v : FieldVal) :
    dget? (d ++ [(k', v)]) k =
      match dget? d k with
      | some x => some x
      | none => if k' = k then some v else none := by
  induction d with
  | nil => simp [dget?]
  | cons hd tl ih =>
    obtain ⟨k0, v0⟩ := hd
    by_cases h0 : k0 = k <;> simp [dget?, h0, ih]

theorem dget?_dsetdefault_self (d : Dict) (k : String) (v : FieldVal) :
    dget? (dsetdefault d k v) k = some ((dget? d k).getD v) := by
  unfold dsetdefault
  cases h : dget? d k with
  | some x => simp [h]
  | none => simp [h, dget?_append_single]

theorem dget?_dsetdefault_ne (d : Dict) (k' k : String) (v : FieldVal) (h : k' ≠ k) :
    dget? (dsetdefault d k' v) k = dget? d k := by
  unfold dsetdefault
  cases h0 : dget? d k' with
  | some x => simp [h0]
  | none =>
    simp only [h0, Option.isSome_none, Bool.false_eq_true, if_false, dget?_append_single]
    cases h1 : dget? d k with
    | some y => simp
    | none => simp [h]

theorem dget?_dsetdefault_isSome (d : Dict) (k : String) (v : FieldVal) :
    (dget? (dsetdefault d k v) k).isSome := by
  rw [dget?_dsetdefault_self]; rfl

/-! ### Embedded regular expressions -/

/-- Leftmost match of `\((\d+)\)` (the review-count pattern), returning
the captured integer.  On a failed attempt the scan resumes one position
later, as `re.search` does. -/
def findParenNum : List Char → Option Nat
  | [] => none
  | c :: rest =>
    if c = '(' then
      let ds := rest.takeWhile Char.isDigit
      let r := rest.dropWhile Char.isDigit
      if !ds.isEmpty then
        match r with
        | ch :: _ => if ch = ')' then some (ds.foldl (fun a d => a * 10 + (d.toNat - 48)) 0)
                     else findParenNum rest
        | [] => findParenNum rest
      else findParenNum rest
    else findParenNum rest

/-- First character of the captured city run in
`\b\d{5}\s+([A-ZÀ-Ÿ][A-Za-zÀ-ÿ\s\-\x27]+)`: ASCII uppercase or `À`-`Ÿ`
(code points 0xC0-0x178). -/
def cityUpperStart (c : Char) : Bool :=
  ('A' ≤ c && c ≤ 'Z') || (0xC0 ≤ c.toNat && c.toNat ≤ 0x178)

/-- Body character of the captured city run: `[A-Za-zÀ-ÿ\s\-\x27]`. -/
def cityBodyChar (c : Char) : Bool :=
  ('A' ≤ c && c ≤ 'Z') || ('a' ≤ c && c ≤ 'z') ||
    (0xC0 ≤ c.toNat && c.toNat ≤ 0xFF) || pySpace c || c = '-' || c.toNat = 39

/-- Attempt the postal-code city pattern at the current position
(the caller has already checked the `\b` word boundary): five digits,
at least one whitespace, an uppercase start and a non-empty greedy run
of body characters.  Returns the captured group. -/
def cityGroupAt (cs : List Char) : Option (List Char) :=
  match cs with
  | a :: b :: c :: d :: e :: rest =>
    if a.isDigit && b.isDigit && c.isDigit && d.isDigit && e.isDigit then
      let ws := rest.takeWhile pySpace
      let rest2 := rest.dropWhile pySpace
      if ws.isEmpty then none
      else
        match rest2 with
        | [] => none
        | u :: rest3 =>
          if cityUpperStart u then
            let body := rest3.takeWhile cityBodyChar
            if body.isEmpty then none else some (u :: body)
          else none
    else none
  | _ => none

/-- `re.search` of the postal-code city pattern: try each position left
to right, tracking the previous character for the `\b` word boundary
(the match starts with a digit, so the boundary holds exactly when the
previous character is absent or a non-word character). -/
def citySearchGo (prev : Option Char) : List Char → Option (List Char)
  | [] => none
  | c :: rest =>
    let boundary := match prev with
      | none => true
      | some p => !pyWordChar p
    match (if boundary then cityGroupAt (c :: rest) else none) with
    | some grp => some grp
    | none => citySearchGo (some c) rest

/-- Worker for `re.sub(r'\b\d{5}\b', '', s)`, structurally recursive on
a fuel bound (`fuel ≥ length` makes the exhaustion arm unreachable):
delete every standalone five-digit run (word boundaries on both sides);
scanning resumes after a deleted run with the original characters as
boundary context. -/
def stripPostalGo : Nat → Option Char → List Char → List Char
  | 0, _, cs => cs
  | _ + 1, _, [] => []
  | fuel + 1, prev, c :: rest =>
    let boundary := match prev with
      | none => true
      | some p => !pyWordChar p
    if boundary && c.isDigit then
      match rest with
      | d2 :: d3 :: d4 :: d5 :: rest2 =>
        if d2.isDigit && d3.isDigit && d4.isDigit && d5.isDigit &&
            (match rest2 with
             | [] => true
             | n :: _ => !pyWordChar n) then
          stripPostalGo fuel (some d5) rest2
        else c :: stripPostalGo fuel (some c) rest
      | _ => c :: stripPostalGo fuel (some c) rest
    else c :: stripPostalGo fuel (some c) rest

/-- `re.sub(r'\b\d{5}\b', '', s)`. -/
def stripPostalTokens (prev : Option Char) (cs : List Char) : List Char :=
  stripPostalGo cs.length prev cs

/-! ### City inference (`_extract_city_from_address`) -/

/-- `re.sub(r"[^\w\s\-\x27À-ÿ]", '', city)`: keep word characters,
whitespace, hyphen, apostrophe and `À`-`ÿ`. -/
def cleanCityChars (cs : List Char) : List Char :=
  cs.filter (fun c =>
    pyWordChar c || pySpace c || c = '-' || c.toNat = 39 ||
      (0xC0 ≤ c.toNat && c.toNat ≤ 0xFF))

/-- Strategy 1 of the source: the postal-code-anchored capture, stripped,
cleaned of residual punctuation and stripped again. -/
def cityFromPostal (address : String) : Option String :=
  (citySearchGo none address.data).map
    (fun g => String.mk (pyStripL (cleanCityChars (pyStripL g))))

/-- The source's fixed reference list of known city names, in list order. -/
def commonCities : List String :=
  ["Paris", "Lyon", "Marseille", "Toulouse", "Nice", "Nantes", "Strasbourg",
   "Montpellier", "Bordeaux", "Lille", "Rennes", "Reims", "Le Havre",
   "Saint-Étienne", "Toulon", "Grenoble", "Dijon", "Angers", "Nîmes", "Villeurbanne"]

/-- Strategy 2: first city of the reference list (in list order) whose
lowercased name occurs in the lowercased address. -/
def cityFromKnown (address : String) : Option String :=
  commonCities.find? (fun c => listContainsSub (pyLowerL address.data) (pyLowerL c.data))

/-- Strategy 3: with at least two comma-separated segments, the stripped
last segment with standalone five-digit tokens removed, if longer than
two characters. -/
def cityFromLast (address : String) : Option String :=
  let parts := splitOnCharL ',' address.data
  if parts.length ≥ 2 then
    let lastPart := pyStripL (parts.getLastD [])
    let stripped := pyStripL (stripPostalTokens none lastPart)
    if !stripped.isEmpty && stripped.length > 2 then some (String.mk stripped) else none
  else none

/-- `_extract_city_from_address`: the three strategies in source order,
first match wins, otherwise the placeholder.  The source wraps this body
in `try/except` returning the placeholder; every operation in the body
is total, so the handler is unreachable and the embedding is the body
itself. -/
def _extract_city_from_address (address : String) : String :=
  match cityFromPostal address with
  | some c => c
  | none =>
    match cityFromKnown address with
    | some c => c
    | none =>
      match cityFromLast address with
      | some c => c
      | none => "Non spécifiée"

/-! ### The per-batch override policy and `_get_or_create_ville_option` -/

/-- The caller-supplied overrides (`default_city`, `default_business_type`),
stored on the extractor by `process_html_file`.  `none` models both an
absent attribute and an explicit `None`. -/
structure OverridePolicy where
  default_city : Option String := none
  default_business_type : Option String := none

/-- The non-override tail of `_get_or_create_ville_option`: placeholder
for empty/placeholder input, placeholder for a bare postal code, drop a
leading all-digit token, then title-case. -/
def villeNoDefault (ville : String) : String :=
  if ville = "" || pyStrip ville = "" || ville = "Non spécifiée" then "Non spécifiée"
  else
    let villeClean := pyStrip ville
    if pyIsDigitL villeClean.data then "Non spécifiée"
    else
      let parts := pySplitWs villeClean.data
      let villeClean2 :=
        if parts.length > 1 && pyIsDigitL (parts.headD []) then
          String.mk (joinSpace (parts.drop 1))
        else villeClean
      pyTitle villeClean2

/-- `_get_or_create_ville_option`: a truthy `default_city` short-circuits
to its stripped value; otherwise the cleaned inferred city is used. -/
def _get_or_create_ville_option (defaultCity : Option String) (ville : String) : String :=
  match defaultCity with
  | some dc => if dc ≠ "" then pyStrip dc else villeNoDefault ville
  | none => villeNoDefault ville

/-! ### Listing fragments and the field extractors -/

/-- The texts and attributes `_extract_single_business` reads from one
listing container, in the source's query order: the headline name
element's text, the rating container (value text and review text), the
info elements' texts, the phone span's text, the website anchor's
`href`, and the styled spans as (style, text) pairs in document order.
`none` models an absent element/attribute; texts are raw (the source
applies `get_text(strip=True)` at the use site, modelled by `pyStrip`). -/
structure RatingBox where
  ratingText : Option String
  reviewsText : Option String

structure Fragment where
  nameText : Option String
  ratingBox : Option RatingBox
  infoTexts : List String
  phoneText : Option String
  websiteHref : Option String
  styledSpans : List (String × String)

/-- The address keywords of the source, checked case-insensitively. -/
def addressKeywords : List String := ["rue", "avenue", "boulevard", "place", "bd"]

/-- `any(keyword in text.lower() for keyword in [...])`. -/
def kwAny (text : String) : Bool :=
  addressKeywords.any (fun k => listContainsSub (pyLowerL text.data) k.data)

/-- `'·' in text`. -/
def hasMiddleDot (text : String) : Bool :=
  text.data.any (fun c => c = '·')

/-- The for/break over the middle-dot segments: the first stripped
segment that still contains an address keyword. -/
def firstKwPart : List String → Option String
  | [] => none
  | p :: rest =>
    let ps := pyStrip p
    if kwAny ps then some ps else firstKwPart rest

/-- One info element's contribution, lines 180-189 of the source: a
keyword-containing text that also contains a middle dot stores the first
keyword-containing segment as the address together with the inferred
city; a keyword-containing text without a middle dot stores nothing. -/
def addrStep (b : Dict) (raw : String) : Dict :=
  let text := pyStrip raw
  if kwAny text then
    if hasMiddleDot text then
      match firstKwPart ((splitOnCharL '·' text.data).map String.mk) with
      | some part =>
        dset (dset b "adresse" (vStr part)) "ville" (vStr (_extract_city_from_address part))
      | none => b
    else b
  else b

/-- The loop over all info elements. -/
def addrStage (b : Dict) (texts : List String) : Dict :=
  texts.foldl addrStep b

/-- Rating and review-count extraction (lines 153-169): the rating text
is stripped, comma-normalised and parsed with `float` (a parse failure
stores `None`); the review text's first parenthesised integer becomes
the count. -/
def ratingStage (b : Dict) : Option RatingBox → Dict
  | none => b
  | some rb =>
    let b1 :=
      match rb.ratingText with
      | none => b
      | some rt =>
        match pyFloat? (String.mk (replaceCommaDot (pyStripL rt.data))) with
        | some q => dset b "note" (vFloat q)
        | none => dset b "note" vNone
    match rb.reviewsText with
    | none => b1
    | some rv =>
      match findParenNum (pyStripL rv.data) with
      | some n => dset b1 "nombre_avis" (vInt n)
      | none => b1

/-- Phone extraction (lines 192-194). -/
def phoneStage (b : Dict) : Option String → Dict
  | none => b
  | some t => dset b "telephone" (vStr (pyStrip t))

/-- Website extraction (lines 197-199): the `href` is stored only when
truthy. -/
def websiteStage (b : Dict) : Option String → Dict
  | none => b
  | some u => if u ≠ "" then dset b "site_web" (vStr u) else b

def redMarker : String := "color: rgba(220,54,46"
def greenMarker : String := "color: rgba(25,134,57"
def orangeMarker : String := "color: rgba(178,108,0"

def styleHasRed (st : String) : Bool := listContainsSub st.data redMarker.data
def styleHasGreen (st : String) : Bool := listContainsSub st.data greenMarker.data
def styleHasOrange (st : String) : Bool := listContainsSub st.data orangeMarker.data

/-- One styled span's contribution to the open status (lines 202-213):
the if/elif chain stores the stripped text when the inline style
contains one of the three colour markers and the text is non-empty. -/
def statusStep (b : Dict) (pr : String × String) : Dict :=
  let style := pr.1
  let text := pyStrip pr.2
  if styleHasRed style && text ≠ "" then dset b "statut_ouverture" (vStr text)
  else if styleHasGreen style && text ≠ "" then dset b "statut_ouverture" (vStr text)
  else if styleHasOrange style && text ≠ "" then dset b "statut_ouverture" (vStr text)
  else b

/-- The loop over all styled spans, in document order. -/
def statusStage (b : Dict) (spans : List (String × String)) : Dict :=
  spans.foldl statusStep b

/-- The default business type of line 223: the override when truthy,
else the placeholder. -/
def defaultTypeOf (p : OverridePolicy) : String :=
  match p.default_business_type with
  | some t => if t = "" then "Non spécifié" else t
  | none => "Non spécifié"

/-- Lines 219-228: the default fields, in source order (`setdefault`
except the unconditional `type_entreprise` assignment). -/
def finalizeStage (p : OverridePolicy) (b : Dict) : Dict :=
  let b1 := dsetdefault b "note" vNone
  let b2 := dsetdefault b1 "nombre_avis" (vInt 0)
  let b3 := dset b2 "type_entreprise" (vStr (defaultTypeOf p))
  let b4 := dsetdefault b3 "adresse" (vStr "Non spécifiée")
  let b5 := dsetdefault b4 "ville" (vStr "Non spécifiée")
  let b6 := dsetdefault b5 "telephone" (vStr "Non spécifié")
  let b7 := dsetdefault b6 "site_web" (vStr "Non spécifié")
  dsetdefault b7 "statut_ouverture" (vStr "Non spécifié")

/-- The optional-field extractors after the name, in source order. -/
def fieldsStage (b : Dict) (f : Fragment) : Dict :=
  statusStage
    (websiteStage
      (phoneStage
        (addrStage (ratingStage b f.ratingBox) f.infoTexts)
        f.phoneText)
      f.websiteHref)
    f.styledSpans

/-- `_extract_single_business`: a missing name element aborts with no
record (line 150); an empty extracted name fails the line-216 validation;
otherwise the defaults are applied and the record returned. -/
def _extract_single_business (p : OverridePolicy) (f : Fragment) : Option Dict :=
  match f.nameText with
  | none => none
  | some nraw =>
    let b := fieldsStage (dset [] "nom" (vStr (pyStrip nraw))) f
    if pyTruthy (dget? b "nom") then some (finalizeStage p b) else none

/-! ### The batch run (`extract_businesses_from_html`) -/

/-- The outcome of handing the raw markup to the document parser: either
the parse raises (caught at line 127) or it yields the ordered listing
fragments found by the container scan. -/
inductive HtmlDoc where
  | unparseable
  | parsed (frags : List Fragment)

/-- The batch accumulator: the `businesses` list and the
`successful_extractions` / `failed_extractions` / `extraction_errors`
locals of lines 67-70. -/
structure BatchResult where
  businesses : List Dict
  succeeded : Nat
  failed : Nat
  errors : List String
  deriving DecidableEq

def emptyBatch : BatchResult := ⟨[], 0, 0, []⟩

/-- One iteration of the per-container loop (lines 97-113): a record
appends and counts a success, `None` counts a failure with the
incomplete-data message.  The per-fragment `except` arm of the source
catches exceptions the embedded extractor cannot raise. -/
def stepB (p : OverridePolicy) (s : BatchResult) (f : Fragment) : BatchResult :=
  match _extract_single_business p f with
  | some d => { s with businesses := s.businesses ++ [d], succeeded := s.succeeded + 1 }
  | none => { s with failed := s.failed + 1,
                     errors := s.errors ++ ["Données d'entreprise incomplètes"] }

def runFrom (p : OverridePolicy) (s : BatchResult) (frags : List Fragment) : BatchResult :=
  frags.foldl (stepB p) s

def runFrags (p : OverridePolicy) (frags : List Fragment) : BatchResult :=
  runFrom p emptyBatch frags

/-- `extract_businesses_from_html`: a document-level parse error is
caught and yields the empty result (the source returns the empty list
with the counters still zero); otherwise every fragment is processed. -/
def extract_businesses_from_html (p : OverridePolicy) : HtmlDoc → BatchResult
  | .unparseable => emptyBatch
  | .parsed frags => runFrags p frags

/-- The string handed to `_get_or_create_ville_option` by the delivery
path (`business_data.get('ville', 'Non spécifiée')`); records only ever
store strings under `'ville'`. -/
def villeArg (d : Dict) : String :=
  match dget? d "ville" with
  | some (vStr s) => s
  | _ => "Non spécifiée"

/-- The city as delivered for one record: the override applier composed
with the record's own city field. -/
def deliveredCity (p : OverridePolicy) (d : Dict) : String :=
  _get_or_create_ville_option p.default_city (villeArg d)

/-! ### Stage characterisation lemmas -/

/-- Whether one styled span triggers a status assignment: a recognised
colour marker in its style and a non-empty stripped text. -/
def spanMatches (pr : String × String) : Bool :=
  (styleHasRed pr.1 || styleHasGreen pr.1 || styleHasOrange pr.1) && pyStrip pr.2 ≠ ""

/-- The status text one styled span writes, if any. -/
def statusVal (pr : String × String) : Option String :=
  if spanMatches pr then some (pyStrip pr.2) else none

theorem statusStep_get (b : Dict) (pr : String × String) :
    dget? (statusStep b pr) "statut_ouverture" =
      match statusVal pr with
      | some t => some (vStr t)
      | none => dget? b "statut_ouverture" := by
  unfold statusStep statusVal spanMatches
  by_cases hR : styleHasRed pr.1 = true <;>
  by_cases hG : styleHasGreen pr.1 = true <;>
  by_cases hO : styleHasOrange pr.1 = true <;>
  by_cases hT : pyStrip pr.2 = "" <;>
    simp [hR, hG, hO, hT, dget?_dset_self]

theorem statusStep_pres (b : Dict) (pr : String × String) (k : String)
    (h : k ≠ "statut_ouverture") :
    dget? (statusStep b pr) k = dget? b k := by
  unfold statusStep
  by_cases hR : styleHasRed pr.1 = true <;>
  by_cases hG : styleHasGreen pr.1 = true <;>
  by_cases hO : styleHasOrange pr.1 = true <;>
  by_cases hT : pyStrip pr.2 = "" <;>
    simp [hR, hG, hO, hT, dget?_dset_ne _ _ _ _ (Ne.symm h)]

/-- The status text of the last matching span, computed from the right. -/
def lastStatusText : List (String × String) → Option String
  | [] => none
  | pr :: rest =>
    match lastStatusText rest with
    | some t => some t
    | none => statusVal pr

theorem statusStage_get (spans : List (String × String)) : ∀ b : Dict,
    dget? (statusStage b spans) "statut_ouverture" =
      match lastStatusText spans with
      | some t => some (vStr t)
      | none => dget? b "statut_ouverture" := by
  induction spans with
  | nil => intro b; rfl
  | cons x xs ih =>
    intro b
    show dget? (statusStage (statusStep b x) xs) _ = _
    rw [ih (statusStep b x)]
    show _ = (match (match lastStatusText xs with
                     | some t => some t
                     | none => statusVal x) with
              | some t => some (vStr t)
              | none => dget? b "statut_ouverture")
    cases h : lastStatusText xs with
    | some t => simp
    | none => simp [statusStep_get]

theorem statusStage_pres (spans : List (String × String)) (k : String)
    (h : k ≠ "statut_ouverture") : ∀ b : Dict,
    dget? (statusStage b spans) k = dget? b k := by
  induction spans with
  | nil => intro b; rfl
  | cons x xs ih =>
    intro b
    show dget? (statusStage (statusStep b x) xs) k = _
    rw [ih (statusStep b x), statusStep_pres _ _ _ h]

/-- `lastStatusText` really is the text of the last matching span in
document order. -/
theorem lastStatusText_eq_find_rev (spans : List (String × String)) :
    lastStatusText spans = (spans.reverse.find? spanMatches).map (fun pr => pyStrip pr.2) := by
  induction spans with
  | nil => rfl
  | cons x xs ih =>
    show (match lastStatusText xs with
          | some t => some t
          | none => statusVal x) = _
    rw [List.reverse_cons, List.find?_append, ih]
    cases h : xs.reverse.find? spanMatches with
    | some pr => simp
    | none =>
      cases hm : spanMatches x with
      | true => simp [List.find?, hm, statusVal]
      | false => simp [List.find?, hm, statusVal]

/-- The address/city pair one info text contributes, if any (keyword
present and a middle dot present). -/
def addrCandidate (raw : String) : Option (String × String) :=
  let text := pyStrip raw
  if kwAny text then
    if hasMiddleDot text then
      (firstKwPart ((splitOnCharL '·' text.data).map String.mk)).map
        (fun part => (part, _extract_city_from_address part))
    else none
  else none

theorem addrStep_eq (b : Dict) (raw : String) :
    addrStep b raw =
      match addrCandidate raw with
      | some c => dset (dset b "adresse" (vStr c.1)) "ville" (vStr c.2)
      | none => b := by
  unfold addrStep addrCandidate
  by_cases h1 : kwAny (pyStrip raw) = true <;> simp [h1]
  by_cases h2 : hasMiddleDot (pyStrip raw) = true <;> simp [h2]
  cases h3 : firstKwPart ((splitOnCharL '·' (pyStrip raw).data).map String.mk) <;> simp [h3]

theorem addrStep_get_adresse (b : Dict) (raw : String) :
    dget? (addrStep b raw) "adresse" =
      match addrCandidate raw with
      | some c => some (vStr c.1)
      | none => dget? b "adresse" := by
  rw [addrStep_eq]
  cases h : addrCandidate raw with
  | some c =>
    simp [dget?_dset_ne _ _ _ _ (by decide : "ville" ≠ "adresse"), dget?_dset_self]
  | none => simp

theorem addrStep_get_ville (b : Dict) (raw : String) :
    dget? (addrStep b raw) "ville" =
      match addrCandidate raw with
      | some c => some (vStr c.2)
      | none => dget? b "ville" := by
  rw [addrStep_eq]
  cases h : addrCandidate raw with
  | some c => simp [dget?_dset_self]
  | none => simp

theorem addrStep_pres (b : Dict) (raw : String) (k : String)
    (h1 : k ≠ "adresse") (h2 : k ≠ "ville") :
    dget? (addrStep b raw) k = dget? b k := by
  rw [addrStep_eq]
  cases h : addrCandidate raw with
  | some c =>
    simp [dget?_dset_ne _ _ _ _ (Ne.symm h2), dget?_dset_ne _ _ _ _ (Ne.symm h1)]
  | none => simp

/-- The address/city pair of the last contributing info text. -/
def lastAddrCand : List String → Option (String × String)
  | [] => none
  | raw :: rest =>
    match lastAddrCand rest with
    | some c => some c
    | none => addrCandidate raw

theorem addrStage_get_adresse (ts : List String) : ∀ b : Dict,
    dget? (addrStage b ts) "adresse" =
      match lastAddrCand ts with
      | some c => some (vStr c.1)
      | none => dget? b "adresse" := by
  induction ts with
  | nil => intro b; rfl
  | cons r rest ih =>
    intro b
    show dget? (addrStage (addrStep b r) rest) _ = _
    rw [ih (addrStep b r)]
    show _ = (match (match lastAddrCand rest with
                     | some c => some c
                     | none => addrCandidate r) with
              | some c => some (vStr c.1)
              | none => dget? b "adresse")
    cases h : lastAddrCand rest with
    | some c => simp
    | none => simp [addrStep_get_adresse]

theorem addrStage_get_ville (ts : List String) : ∀ b : Dict,
    dget? (addrStage b ts) "ville" =
      match lastAddrCand ts with
      | some c => some (vStr c.2)
      | none => dget? b "ville" := by
  induction ts with
  | nil => intro b; rfl
  | cons r rest ih =>
    intro b
    show dget? (addrStage (addrStep b r) rest) _ = _
    rw [ih (addrStep b r)]
    show _ = (match (match lastAddrCand rest with
                     | some c => some c
                     | none => addrCandidate r) with
              | some c => some (vStr c.2)
              | none => dget? b "ville")
    cases h : lastAddrCand rest with
    | some c => simp
    | none => simp [addrStep_get_ville]

theorem addrStage_pres (ts : List String) (k : String)
    (h1 : k ≠ "adresse") (h2 : k ≠ "ville") : ∀ b : Dict,
    dget? (addrStage b ts) k = dget? b k := by
  induction ts with
  | nil => intro b; rfl
  | cons r rest ih =>
    intro b
    show dget? (addrStage (addrStep b r) rest) k = _
    rw [ih (addrStep b r), addrStep_pres _ _ _ h1 h2]

/-- The `note` value parsed from a rating text: strip, normalise the
decimal comma, parse; `None` on parse failure. -/
def noteValOf (rt : String) : FieldVal :=
  match pyFloat? (String.mk (replaceCommaDot (pyStripL rt.data))) with
  | some q => vFloat q
  | none => vNone

theorem ratingStage_get_note (b : Dict) (rb? : Option RatingBox) :
    dget? (ratingStage b rb?) "note" =
      match rb? with
      | some rb =>
        match rb.ratingText with
        | some rt => some (noteValOf rt)
        | none => dget? b "note"
      | none => dget? b "note" := by
  cases rb? with
  | none => rfl
  | some rb =>
    unfold ratingStage
    cases hrt : rb.ratingText with
    | none =>
      cases hrv : rb.reviewsText with
      | none => simp [hrt, hrv]
      | some rv =>
        cases hn : findParenNum (pyStripL rv.data) with
        | none => simp [hrt, hrv, hn]
        | some n =>
          simp [hrt, hrv, hn, dget?_dset_ne _ _ _ _ (by decide : "nombre_avis" ≠ "note")]
    | some rt =>
      cases hq : pyFloat? (String.mk (replaceCommaDot (pyStripL rt.data))) with
      | none =>
        cases hrv : rb.reviewsText with
        | none => simp [hrt, hrv, hq, noteValOf, dget?_dset_self]
        | some rv =>
          cases hn : findParenNum (pyStripL rv.data) with
          | none => simp [hrt, hrv, hq, hn, noteValOf, dget?_dset_self]
          | some n =>
            simp [hrt, hrv, hq, hn, noteValOf,
              dget?_dset_ne _ _ _ _ (by decide : "nombre_avis" ≠ "note"), dget?_dset_self]
      | some q =>
        cases hrv : rb.reviewsText with
        | none => simp [hrt, hrv, hq, noteValOf, dget?_dset_self]
        | some rv =>
          cases hn : findParenNum (pyStripL rv.data) with
          | none => simp [hrt, hrv, hq, hn, noteValOf, dget?_dset_self]
          | some n =>
            simp [hrt, hrv, hq, hn, noteValOf,
              dget?_dset_ne _ _ _ _ (by decide : "nombre_avis" ≠ "note"), dget?_dset_self]

theorem ratingStage_pres (b : Dict) (rb? : Option RatingBox) (k : String)
    (h1 : k ≠ "note") (h2 : k ≠ "nombre_avis") :
    dget? (ratingStage b rb?) k = dget? b k := by
  cases rb? with
  | none => rfl
  | some rb =>
    unfold ratingStage
    cases hrt : rb.ratingText with
    | none =>
      cases hrv : rb.reviewsText with
      | none => simp [hrt, hrv]
      | some rv =>
        cases hn : findParenNum (pyStripL rv.data) with
        | none => simp [hrt, hrv, hn]
        | some n => simp [hrt, hrv, hn, dget?_dset_ne _ _ _ _ (Ne.symm h2)]
    | some rt =>
      cases hq : pyFloat? (String.mk (replaceCommaDot (pyStripL rt.data))) with
      | none =>
        cases hrv : rb.reviewsText with
        | none => simp [hrt, hrv, hq, dget?_dset_ne _ _ _ _ (Ne.symm h1)]
        | some rv =>
          cases hn : findParenNum (pyStripL rv.data) with
          | none => simp [hrt, hrv, hq, hn, dget?_dset_ne _ _ _ _ (Ne.symm h1)]
          | some n =>
            simp [hrt, hrv, hq, hn, dget?_dset_ne _ _ _ _ (Ne.symm h2),
              dget?_dset_ne _ _ _ _ (Ne.symm h1)]
      | some q =>
        cases hrv : rb.reviewsText with
        | none => simp [hrt, hrv, hq, dget?_dset_ne _ _ _ _ (Ne.symm h1)]
        | some rv =>
          cases hn : findParenNum (pyStripL rv.data) with
          | none => simp [hrt, hrv, hq, hn, dget?_dset_ne _ _ _ _ (Ne.symm h1)]
          | some n =>
            simp [hrt, hrv, hq, hn, dget?_dset_ne _ _ _ _ (Ne.symm h2),
              dget?_dset_ne _ _ _ _ (Ne.symm h1)]

theorem phoneStage_pres (b : Dict) (pt : Option String) (k : String)
    (h : k ≠ "telephone") :
    dget? (phoneStage b pt) k = dget? b k := by
  cases pt with
  | none => rfl
  | some t => exact dget?_dset_ne _ _ _ _ (Ne.symm h)

theorem websiteStage_pres (b : Dict) (wh : Option String) (k : String)
    (h : k ≠ "site_web") :
    dget? (websiteStage b wh) k = dget? b k := by
  cases wh with
  | none => rfl
  | some u =>
    unfold websiteStage
    by_cases hu : u = "" <;> simp [hu, dget?_dset_ne _ _ _ _ (Ne.symm h)]

/-! ### The field pipeline key by key -/

theorem fieldsStage_pres (b : Dict) (f : Fragment) (k : String)
    (h1 : k ≠ "note") (h2 : k ≠ "nombre_avis") (h3 : k ≠ "adresse") (h4 : k ≠ "ville")
    (h5 : k ≠ "telephone") (h6 : k ≠ "site_web") (h7 : k ≠ "statut_ouverture") :
    dget? (fieldsStage b f) k = dget? b k := by
  unfold fieldsStage
  rw [statusStage_pres _ _ h7, websiteStage_pres _ _ _ h6, phoneStage_pres _ _ _ h5,
    addrStage_pres _ _ h3 h4, ratingStage_pres _ _ _ h1 h2]

theorem fieldsStage_get_nom (b : Dict) (f : Fragment) :
    dget? (fieldsStage b f) "nom" = dget? b "nom" := by
  exact fieldsStage_pres b f "nom" (by decide) (by decide) (by decide) (by decide)
    (by decide) (by decide) (by decide)

theorem fieldsStage_get_note (b : Dict) (f : Fragment) :
    dget? (fieldsStage b f) "note" =
      match f.ratingBox with
      | some rb =>
        match rb.ratingText with
        | some rt => some (noteValOf rt)
        | none => dget? b "note"
      | none => dget? b "note" := by
  unfold fieldsStage
  rw [statusStage_pres _ _ (by decide), websiteStage_pres _ _ _ (by decide),
    phoneStage_pres _ _ _ (by decide), addrStage_pres _ _ (by decide) (by decide),
    ratingStage_get_note]

theorem fieldsStage_get_adresse (b : Dict) (f : Fragment) :
    dget? (fieldsStage b f) "adresse" =
      match lastAddrCand f.infoTexts with
      | some c => some (vStr c.1)
      | none => dget? b "adresse" := by
  unfold fieldsStage
  rw [statusStage_pres _ _ (by decide), websiteStage_pres _ _ _ (by decide),
    phoneStage_pres _ _ _ (by decide), addrStage_get_adresse]
  cases h : lastAddrCand f.infoTexts with
  | some c => simp
  | none =>
    simp only []
    exact ratingStage_pres _ _ "adresse" (by decide) (by decide)

theorem fieldsStage_get_ville (b : Dict) (f : Fragment) :
    dget? (fieldsStage b f) "ville" =
      match lastAddrCand f.infoTexts with
      | some c => some (vStr c.2)
      | none => dget? b "ville" := by
  unfold fieldsStage
  rw [statusStage_pres _ _ (by decide), websiteStage_pres _ _ _ (by decide),
    phoneStage_pres _ _ _ (by decide), addrStage_get_ville]
  cases h : lastAddrCand f.infoTexts with
  | some c => simp
  | none =>
    simp only []
    exact ratingStage_pres _ _ "ville" (by decide) (by decide)

theorem fieldsStage_get_statut (b : Dict) (f : Fragment) :
    dget? (fieldsStage b f) "statut_ouverture" =
      match lastStatusText f.styledSpans with
      | some t => some (vStr t)
      | none => dget? b "statut_ouverture" := by
  unfold fieldsStage
  rw [statusStage_get]
  cases h : lastStatusText f.styledSpans with
  | some t => simp
  | none =>
    simp only []
    rw [websiteStage_pres _ _ _ (by decide : ("statut_ouverture" : String) ≠ "site_web"),
      phoneStage_pres _ _ _ (by decide : ("statut_ouverture" : String) ≠ "telephone"),
      addrStage_pres _ _ (by decide) (by decide),
      ratingStage_pres _ _ _ (by decide) (by decide)]

/-! ### The defaulting stage key by key -/

theorem finalize_get_nom (p : OverridePolicy) (b : Dict) :
    dget? (finalizeStage p b) "nom" = dget? b "nom" := by
  unfold finalizeStage
  rw [dget?_dsetdefault_ne _ _ _ _ (by decide), dget?_dsetdefault_ne _ _ _ _ (by decide),
    dget?_dsetdefault_ne _ _ _ _ (by decide), dget?_dsetdefault_ne _ _ _ _ (by decide),
    dget?_dsetdefault_ne _ _ _ _ (by decide), dget?_dset_ne _ _ _ _ (by decide),
    dget?_dsetdefault_ne _ _ _ _ (by decide), dget?_dsetdefault_ne _ _ _ _ (by decide)]

theorem finalize_get_note (p : OverridePolicy) (b : Dict) :
    dget? (finalizeStage p b) "note" = some ((dget? b "note").getD vNone) := by
  unfold finalizeStage
  rw [dget?_dsetdefault_ne _ _ _ _ (by decide), dget?_dsetdefault_ne _ _ _ _ (by decide),
    dget?_dsetdefault_ne _ _ _ _ (by decide), dget?_dsetdefault_ne _ _ _ _ (by decide),
    dget?_dsetdefault_ne _ _ _ _ (by decide), dget?_dset_ne _ _ _ _ (by decide),
    dget?_dsetdefault_ne _ _ _ _ (by decide), dget?_dsetdefault_self]

theorem finalize_get_avis (p : OverridePolicy) (b : Dict) :
    dget? (finalizeStage p b) "nombre_avis" = some ((dget? b "nombre_avis").getD (vInt 0)) := by
  unfold finalizeStage
  rw [dget?_dsetdefault_ne _ _ _ _ (by decide), dget?_dsetdefault_ne _ _ _ _ (by decide),
    dget?_dsetdefault_ne _ _ _ _ (by decide), dget?_dsetdefault_ne _ _ _ _ (by decide),
    dget?_dsetdefault_ne _ _ _ _ (by decide), dget?_dset_ne _ _ _ _ (by decide),
    dget?_dsetdefault_self, dget?_dsetdefault_ne _ _ _ _ (by decide)]

theorem finalize_get_type (p : OverridePolicy) (b : Dict) :
    dget? (finalizeStage p b) "type_entreprise" = some (vStr (defaultTypeOf p)) := by
  unfold finalizeStage
  rw [dget?_dsetdefault_ne _ _ _ _ (by decide), dget?_dsetdefault_ne _ _ _ _ (by decide),
    dget?_dsetdefault_ne _ _ _ _ (by decide), dget?_dsetdefault_ne _ _ _ _ (by decide),
    dget?_dsetdefault_ne _ _ _ _ (by decide), dget?_dset_self]

theorem finalize_get_adresse (p : OverridePolicy) (b : Dict) :
    dget? (finalizeStage p b) "adresse" =
      some ((dget? b "adresse").getD (vStr "Non spécifiée")) := by
  unfold finalizeStage
  rw [dget?_dsetdefault_ne _ _ _ _ (by decide), dget?_dsetdefault_ne _ _ _ _ (by decide),
    dget?_dsetdefault_ne _ _ _ _ (by decide), dget?_dsetdefault_ne _ _ _ _ (by decide),
    dget?_dsetdefault_self, dget?_dset_ne _ _ _ _ (by decide),
    dget?_dsetdefault_ne _ _ _ _ (by decide), dget?_dsetdefault_ne _ _ _ _ (by decide)]

theorem finalize_get_ville (p : OverridePolicy) (b : Dict) :
    dget? (finalizeStage p b) "ville" =
      some ((dget? b "ville").getD (vStr "Non spécifiée")) := by
  unfold finalizeStage
  rw [dget?_dsetdefault_ne _ _ _ _ (by decide), dget?_dsetdefault_ne _ _ _ _ (by decide),
    dget?_dsetdefault_ne _ _ _ _ (by decide), dget?_dsetdefault_self,
    dget?_dsetdefault_ne _ _ _ _ (by decide), dget?_dset_ne _ _ _ _ (by decide),
    dget?_dsetdefault_ne _ _ _ _ (by decide), dget?_dsetdefault_ne _ _ _ _ (by decide)]

theorem finalize_get_telephone (p : OverridePolicy) (b : Dict) :
    dget? (finalizeStage p b) "telephone" =
      some ((dget? b "telephone").getD (vStr "Non spécifié")) := by
  unfold finalizeStage
  rw [dget?_dsetdefault_ne _ _ _ _ (by decide), dget?_dsetdefault_ne _ _ _ _ (by decide),
    dget?_dsetdefault_self, dget?_dsetdefault_ne _ _ _ _ (by decide),
    dget?_dsetdefault_ne _ _ _ _ (by decide), dget?_dset_ne _ _ _ _ (by decide),
    dget?_dsetdefault_ne _ _ _ _ (by decide), dget?_dsetdefault_ne _ _ _ _ (by decide)]

theorem finalize_get_site (p : OverridePolicy) (b : Dict) :
    dget? (finalizeStage p b) "site_web" =
      some ((dget? b "site_web").getD (vStr "Non spécifié")) := by
  unfold finalizeStage
  rw [dget?_dsetdefault_ne _ _ _ _ (by decide), dget?_dsetdefault_self,
    dget?_dsetdefault_ne _ _ _ _ (by decide), dget?_dsetdefault_ne _ _ _ _ (by decide),
    dget?_dsetdefault_ne _ _ _ _ (by decide), dget?_dset_ne _ _ _ _ (by decide),
    dget?_dsetdefault_ne _ _ _ _ (by decide), dget?_dsetdefault_ne _ _ _ _ (by decide)]

theorem finalize_get_statut (p : OverridePolicy) (b : Dict) :
    dget? (finalizeStage p b) "statut_ouverture" =
      some ((dget? b "statut_ouverture").getD (vStr "Non spécifié")) := by
  unfold finalizeStage
  rw [dget?_dsetdefault_self, dget?_dsetdefault_ne _ _ _ _ (by decide),
    dget?_dsetdefault_ne _ _ _ _ (by decide), dget?_dsetdefault_ne _ _ _ _ (by decide),
    dget?_dsetdefault_ne _ _ _ _ (by decide), dget?_dset_ne _ _ _ _ (by decide),
    dget?_dsetdefault_ne _ _ _ _ (by decide), dget?_dsetdefault_ne _ _ _ _ (by decide)]

/-! ### The extractor as a function of the name -/

/-- The dict built for a fragment whose name element was found. -/
def builtDict (p : OverridePolicy) (f : Fragment) (nraw : String) : Dict :=
  finalizeStage p (fieldsStage (dset [] "nom" (vStr (pyStrip nraw))) f)

theorem extract_none_of_missing_name (p : OverridePolicy) (f : Fragment)
    (h : f.nameText = none) : _extract_single_business p f = none := by
  unfold _extract_single_business
  rw [h]

theorem extract_of_name (p : OverridePolicy) (f : Fragment) (nraw : String)
    (h : f.nameText = some nraw) :
    _extract_single_business p f =
      if pyStrip nraw = "" then none else some (builtDict p f nraw) := by
  unfold _extract_single_business builtDict
  rw [h]
  have hnom : dget? (fieldsStage (dset [] "nom" (vStr (pyStrip nraw))) f) "nom" =
      some (vStr (pyStrip nraw)) := by
    rw [fieldsStage_get_nom, dget?_dset_self]
  simp only [hnom, pyTruthy]
  by_cases hs : pyStrip nraw = "" <;> simp [hs]

/-! ### Batch-run homomorphism -/

def combineB (s r : BatchResult) : BatchResult :=
  ⟨s.businesses ++ r.businesses, s.succeeded + r.succeeded,
   s.failed + r.failed, s.errors ++ r.errors⟩

theorem runFrom_append (p : OverridePolicy) (s : BatchResult) (as bs : List Fragment) :
    runFrom p s (as ++ bs) = runFrom p (runFrom p s as) bs :=
  List.foldl_append ..

theorem runFrom_combine (p : OverridePolicy) (frags : List Fragment) : ∀ s : BatchResult,
    runFrom p s frags = combineB s (runFrags p frags) := by
  induction frags with
  | nil =>
    intro s
    cases s
    simp [runFrom, runFrags, combineB, emptyBatch]
  | cons x xs ih =>
    intro s
    show runFrom p (stepB p s x) xs = _
    rw [ih (stepB p s x)]
    have hx : runFrags p (x :: xs) = combineB (stepB p emptyBatch x) (runFrags p xs) := by
      show runFrom p (stepB p emptyBatch x) xs = _
      rw [ih (stepB p emptyBatch x)]
    rw [hx]
    cases he : _extract_single_business p x <;>
      simp [stepB, he, combineB, emptyBatch, List.append_assoc, Nat.add_assoc,
        Nat.add_comm, Nat.add_left_comm]

/-! ### Concrete inputs used by witnesses and counterexamples -/

/-- The nine fields of a finished record. -/
def nineKeys : List String :=
  ["nom", "note", "nombre_avis", "type_entreprise", "adresse", "ville",
   "telephone", "site_web", "statut_ouverture"]

def polEmpty : OverridePolicy := ⟨none, none⟩

def polNantes : OverridePolicy := ⟨some "Nantes", none⟩

/-- A fragment with only the name marker. -/
def fragNamed : Fragment := ⟨some "A", none, [], none, none, []⟩

/-- A fragment whose name marker is absent. -/
def fragNoName : Fragment := ⟨none, none, [], none, none, []⟩

/-- A fragment whose rating text is `"4,5"`. -/
def frag45 : Fragment := ⟨some "A", some ⟨some "4,5", none⟩, [], none, none, []⟩

/-- A fragment whose rating text parses to `9.9`, outside `0.0`-`5.0`. -/
def frag99 : Fragment := ⟨some "A", some ⟨some "9,9", none⟩, [], none, none, []⟩

/-- A fragment with a keyword-bearing info text that has no middle dot. -/
def fragC4 : Fragment := ⟨some "A", none, ["12 rue de Test"], none, none, []⟩

/-- A fragment with a keyword-bearing info text that has a middle dot. -/
def fragAddr : Fragment := ⟨some "A", none, ["Bar · 12 rue de Test"], none, none, []⟩

/-- A fragment with two matching styled spans (green then red). -/
def fragStatus : Fragment :=
  ⟨some "A", none, [], none, none,
   [("color: rgba(25,134,57);", "Ouvert"), ("color: rgba(220,54,46);", " Fermé ")]⟩

def dNamed : Dict := (_extract_single_business polEmpty fragNamed).getD []

def dNantes : Dict := (runFrags polNantes [fragNamed]).businesses.headD []

/-! ### The claims -/

/-- C1: every record returned by `_extract_single_business` has all nine
fields present in the dict and a non-empty `nom`; a fragment whose name
element is missing, or whose stripped name text is empty, produces no
record. -/
theorem c1_record_complete (p : OverridePolicy) (f : Fragment) :
    ((f.nameText = none ∨ ∃ s, f.nameText = some s ∧ pyStrip s = "") →
      _extract_single_business p f = none) ∧
    (∀ d, _extract_single_business p f = some d →
      (∀ k ∈ nineKeys, (dget? d k).isSome) ∧
      ∃ nm, dget? d "nom" = some (vStr nm) ∧ nm ≠ "") := by
  constructor
  · rintro (h | ⟨s, hs, hempty⟩)
    · exact extract_none_of_missing_name p f h
    · rw [extract_of_name p f s hs, if_pos hempty]
  · intro d hd
    cases hn : f.nameText with
    | none =>
      rw [extract_none_of_missing_name p f hn] at hd
      cases hd
    | some nraw =>
      rw [extract_of_name p f nraw hn] at hd
      by_cases hs : pyStrip nraw = ""
      · rw [if_pos hs] at hd; cases hd
      · rw [if_neg hs] at hd
        obtain rfl : builtDict p f nraw = d := Option.some.inj hd
        refine ⟨?_, pyStrip nraw, ?_, hs⟩
        · intro k hk
          simp only [nineKeys, List.mem_cons, List.not_mem_nil, or_false] at hk
          rcases hk with rfl | rfl | rfl | rfl | rfl | rfl | rfl | rfl | rfl
          · unfold builtDict
            rw [finalize_get_nom, fieldsStage_get_nom, dget?_dset_self]; rfl
          · unfold builtDict; rw [finalize_get_note]; rfl
          · unfold builtDict; rw [finalize_get_avis]; rfl
          · unfold builtDict; rw [finalize_get_type]; rfl
          · unfold builtDict; rw [finalize_get_adresse]; rfl
          · unfold builtDict; rw [finalize_get_ville]; rfl
          · unfold builtDict; rw [finalize_get_telephone]; rfl
          · unfold builtDict; rw [finalize_get_site]; rfl
          · unfold builtDict; rw [finalize_get_statut]; rfl
        · unfold builtDict
          rw [finalize_get_nom, fieldsStage_get_nom, dget?_dset_self]

/-- C1 witness: a name-only fragment yields a complete record with a
non-empty name; a nameless fragment yields no record. -/
theorem c1_record_complete_witness :
    ((∀ k ∈ nineKeys, (dget? dNamed k).isSome) ∧
      ∃ nm, dget? dNamed "nom" = some (vStr nm) ∧ nm ≠ "") ∧
    _extract_single_business polEmpty fragNoName = none :=
  ⟨(c1_record_complete polEmpty fragNamed).2 dNamed (by decide),
   (c1_record_complete polEmpty fragNoName).1 (Or.inl rfl)⟩

/-- C2: a fragment whose name marker is absent yields no record and adds
exactly one to the batch failure count, and removing it from the
document leaves the extracted records and the success count of all other
fragments unchanged, wherever it sits in the document. -/
theorem c2_nameless_fragment (p : OverridePolicy) (pre suf : List Fragment) (f : Fragment)
    (h : f.nameText = none) :
    _extract_single_business p f = none ∧
    (extract_businesses_from_html p (.parsed (pre ++ f :: suf))).businesses =
      (extract_businesses_from_html p (.parsed (pre ++ suf))).businesses ∧
    (extract_businesses_from_html p (.parsed (pre ++ f :: suf))).succeeded =
      (extract_businesses_from_html p (.parsed (pre ++ suf))).succeeded ∧
    (extract_businesses_from_html p (.parsed (pre ++ f :: suf))).failed =
      (extract_businesses_from_html p (.parsed (pre ++ suf))).failed + 1 := by
  have hx := extract_none_of_missing_name p f h
  have hL : runFrags p (pre ++ f :: suf) =
      combineB (stepB p (runFrags p pre) f) (runFrags p suf) := by
    unfold runFrags
    rw [runFrom_append]
    show runFrom p (stepB p (runFrom p emptyBatch pre) f) suf = _
    rw [runFrom_combine]
    rfl
  have hR : runFrags p (pre ++ suf) = combineB (runFrags p pre) (runFrags p suf) := by
    unfold runFrags
    rw [runFrom_append, runFrom_combine]
    rfl
  have hstep : stepB p (runFrags p pre) f =
      { runFrags p pre with
        failed := (runFrags p pre).failed + 1,
        errors := (runFrags p pre).errors ++ ["Données d'entreprise incomplètes"] } := by
    unfold stepB
    rw [hx]
  refine ⟨hx, ?_, ?_, ?_⟩
  all_goals simp [extract_businesses_from_html, hL, hR, hstep, combineB]
  all_goals omega

/-- C2 witness: with one named fragment before it, a nameless fragment
adds one failure and changes neither the records nor the successes. -/
theorem c2_nameless_fragment_witness :
    _extract_single_business polEmpty fragNoName = none ∧
    (extract_businesses_from_html polEmpty (.parsed ([fragNamed] ++ fragNoName :: []))).businesses =
      (extract_businesses_from_html polEmpty (.parsed ([fragNamed] ++ []))).businesses ∧
    (extract_businesses_from_html polEmpty (.parsed ([fragNamed] ++ fragNoName :: []))).succeeded =
      (extract_businesses_from_html polEmpty (.parsed ([fragNamed] ++ []))).succeeded ∧
    (extract_businesses_from_html polEmpty (.parsed ([fragNamed] ++ fragNoName :: []))).failed =
      (extract_businesses_from_html polEmpty (.parsed ([fragNamed] ++ []))).failed + 1 :=
  c2_nameless_fragment polEmpty [fragNamed] [] fragNoName rfl

/-- C3: with a truthy (non-empty, already-stripped) fixed city in the
override policy, the city delivered for any record of a batch run equals
that fixed city, whatever city was inferred into the record. -/
theorem c3_city_override (p : OverridePolicy) (doc : HtmlDoc) (c : String) (d : Dict)
    (hc : p.default_city = some c) (hne : c ≠ "") (htrim : pyStrip c = c)
    (_hd : d ∈ (extract_businesses_from_html p doc).businesses) :
    deliveredCity p d = c := by
  unfold deliveredCity _get_or_create_ville_option
  rw [hc]
  simp only [hne, if_true, ne_eq, not_false_eq_true, if_pos]
  exact htrim

/-- C3 witness: a record extracted under the fixed city "Nantes" is
delivered with city "Nantes". -/
theorem c3_city_override_witness : deliveredCity polNantes dNantes = "Nantes" :=
  c3_city_override polNantes (.parsed [fragNamed]) "Nantes" dNantes rfl
    (by decide) (by decide) (by decide)

/-- C5: the documented city-inference examples, together with which
strategy fires for each: the postal-code rule gives "Paris", the
known-city rule gives "Lyon" once the postal rule fails, the last-segment
rule gives "Villelointaine" once both fail, and the empty address falls
through to the placeholder. -/
theorem c5_city_examples :
    _extract_city_from_address "12 Rue de la Paix, 75002 Paris" = "Paris" ∧
    _extract_city_from_address "Zone Industrielle, Lyon" = "Lyon" ∧
    _extract_city_from_address "Quelque Part, Villelointaine" = "Villelointaine" ∧
    _extract_city_from_address "" = "Non spécifiée" ∧
    cityFromPostal "12 Rue de la Paix, 75002 Paris" = some "Paris" ∧
    cityFromPostal "Zone Industrielle, Lyon" = none ∧
    cityFromKnown "Zone Industrielle, Lyon" = some "Lyon" ∧
    cityFromPostal "Quelque Part, Villelointaine" = none ∧
    cityFromKnown "Quelque Part, Villelointaine" = none ∧
    cityFromLast "Quelque Part, Villelointaine" = some "Villelointaine" := by
  decide

/-- C6: an unparseable document yields the empty batch result: no
records, zero successes, zero failures (hence zero attempts) and no
recorded errors, and the batch function itself returns normally. -/
theorem c6_unparseable_empty (p : OverridePolicy) :
    (extract_businesses_from_html p HtmlDoc.unparseable).businesses = [] ∧
    (extract_businesses_from_html p HtmlDoc.unparseable).succeeded = 0 ∧
    (extract_businesses_from_html p HtmlDoc.unparseable).failed = 0 ∧
    (extract_businesses_from_html p HtmlDoc.unparseable).errors = [] :=
  ⟨rfl, rfl, rfl, rfl⟩

/-- The exact value of the "4,5" example: the parser's output term,
evaluated by the kernel into cast arithmetic, is the rational 9/2. -/
theorem noteValOf_45 : noteValOf "4,5" = vFloat ((9 : Rat) / 2) := by
  have h1 : noteValOf "4,5" =
      vFloat (((1 : Int) : Rat) * (((4 : Nat) : Rat) + ((5 : Nat) : Rat) / (10 : Rat) ^ (1 : Nat))) :=
    rfl
  rw [h1]
  congr 1
  push_cast
  norm_num

/-- The exact value of the "9,9" rating: 99/10. -/
theorem noteValOf_99 : noteValOf "9,9" = vFloat ((99 : Rat) / 10) := by
  have h1 : noteValOf "9,9" =
      vFloat (((1 : Int) : Rat) * (((9 : Nat) : Rat) + ((9 : Nat) : Rat) / (10 : Rat) ^ (1 : Nat))) :=
    rfl
  rw [h1]
  congr 1
  push_cast
  norm_num

/-- C7: for a fragment with a non-empty name and a rating text, a record
is produced and its `note` is the comma-normalised parse of that text
(`None` if the parse fails); in particular "4,5" parses to 4.5 and
"garbage" to `None`. -/
theorem c7_rating_parse (p : OverridePolicy) (f : Fragment) (nraw : String) (rb : RatingBox)
    (rt : String) (hn : f.nameText = some nraw) (hne : pyStrip nraw ≠ "")
    (hrb : f.ratingBox = some rb) (hrt : rb.ratingText = some rt) :
    (∃ d, _extract_single_business p f = some d ∧
      dget? d "note" = some (noteValOf rt)) ∧
    noteValOf "4,5" = vFloat ((9 : Rat) / 2) ∧
    noteValOf "garbage" = vNone := by
  refine ⟨⟨builtDict p f nraw, ?_, ?_⟩, noteValOf_45, rfl⟩
  · rw [extract_of_name p f nraw hn, if_neg hne]
  · unfold builtDict
    rw [finalize_get_note, fieldsStage_get_note]
    simp [hrb, hrt]

/-- C7 witness: the rating text "4,5" yields a record whose `note` is
`4.5`. -/
theorem c7_rating_parse_witness :
    (∃ d, _extract_single_business polEmpty frag45 = some d ∧
      dget? d "note" = some (noteValOf "4,5")) ∧
    noteValOf "4,5" = vFloat ((9 : Rat) / 2) ∧
    noteValOf "garbage" = vNone :=
  c7_rating_parse polEmpty frag45 "A" ⟨some "4,5", none⟩ "4,5" rfl (by decide) rfl rfl

/-- C8 counterexample: the rating text "9,9" is stored as 9.9, outside
the claimed 0.0-5.0 range, in a record that is still produced. -/
theorem c8_counterexample :
    _extract_single_business polEmpty frag99 ≠ none ∧
    dget? ((_extract_single_business polEmpty frag99).getD []) "note" =
      some (vFloat ((99 : Rat) / 10)) ∧
    ¬((0 : Rat) ≤ (99 : Rat) / 10 ∧ (99 : Rat) / 10 ≤ 5) := by
  refine ⟨by decide, ?_, by norm_num⟩
  have h : dget? ((_extract_single_business polEmpty frag99).getD []) "note" =
      some (noteValOf "9,9") := rfl
  rw [h, noteValOf_99]

/-- C4 counterexample: an info text containing an address keyword but no
middle-dot separator is not stored: the record is produced with the
placeholder address, not with that text. -/
theorem c4_counterexample :
    _extract_single_business polEmpty fragC4 ≠ none ∧
    dget? ((_extract_single_business polEmpty fragC4).getD []) "adresse" =
      some (vStr "Non spécifiée") ∧
    vStr "Non spécifiée" ≠ vStr "12 rue de Test" :=
  ⟨by decide, by decide, by decide⟩

/-- C4 (amended): the address is stored only from info texts that contain
both an address keyword and a middle dot (`addrCandidate`); for such a
text the first keyword-containing stripped segment becomes the address
and its inferred city the city, the last contributing text winning; with
no such text the address and city stay at their placeholders (no city
inference runs). -/
theorem c4_amended_address (p : OverridePolicy) (f : Fragment) (d : Dict)
    (hd : _extract_single_business p f = some d) :
    (∃ a v, lastAddrCand f.infoTexts = some (a, v) ∧
      dget? d "adresse" = some (vStr a) ∧ dget? d "ville" = some (vStr v)) ∨
    (lastAddrCand f.infoTexts = none ∧
      dget? d "adresse" = some (vStr "Non spécifiée") ∧
      dget? d "ville" = some (vStr "Non spécifiée")) := by
  cases hn : f.nameText with
  | none =>
    rw [extract_none_of_missing_name p f hn] at hd
    cases hd
  | some nraw =>
    rw [extract_of_name p f nraw hn] at hd
    by_cases hs : pyStrip nraw = ""
    · rw [if_pos hs] at hd; cases hd
    · rw [if_neg hs] at hd
      obtain rfl : builtDict p f nraw = d := Option.some.inj hd
      cases hc : lastAddrCand f.infoTexts with
      | some c =>
        left
        refine ⟨c.1, c.2, rfl, ?_, ?_⟩
        · unfold builtDict
          rw [finalize_get_adresse, fieldsStage_get_adresse]
          simp [hc]
        · unfold builtDict
          rw [finalize_get_ville, fieldsStage_get_ville]
          simp [hc]
      | none =>
        right
        refine ⟨rfl, ?_, ?_⟩
        · unfold builtDict
          rw [finalize_get_adresse, fieldsStage_get_adresse]
          simp [hc, dget?, dset]
        · unfold builtDict
          rw [finalize_get_ville, fieldsStage_get_ville]
          simp [hc, dget?, dset]

/-- C4 amended witness: a keyword text with a middle dot stores its
keyword-containing segment as the address with its inferred city. -/
theorem c4_amended_address_witness :
    (∃ a v, lastAddrCand fragAddr.infoTexts = some (a, v) ∧
      dget? ((_extract_single_business polEmpty fragAddr).getD []) "adresse" = some (vStr a) ∧
      dget? ((_extract_single_business polEmpty fragAddr).getD []) "ville" = some (vStr v)) ∨
    (lastAddrCand fragAddr.infoTexts = none ∧
      dget? ((_extract_single_business polEmpty fragAddr).getD []) "adresse" =
        some (vStr "Non spécifiée") ∧
      dget? ((_extract_single_business polEmpty fragAddr).getD []) "ville" =
        some (vStr "Non spécifiée")) :=
  c4_amended_address polEmpty fragAddr ((_extract_single_business polEmpty fragAddr).getD [])
    (by decide)

/-- C8 (amended): the `note` field of every produced record is either
absent (`None`) or the comma-normalised float parse of the fragment's
rating text; the source applies no 0.0-5.0 range restriction. -/
theorem c8_amended_rating (p : OverridePolicy) (f : Fragment) (d : Dict)
    (hd : _extract_single_business p f = some d) :
    dget? d "note" = some vNone ∨
    (∃ rb rt, f.ratingBox = some rb ∧ rb.ratingText = some rt ∧
      dget? d "note" = some (noteValOf rt)) := by
  cases hn : f.nameText with
  | none =>
    rw [extract_none_of_missing_name p f hn] at hd
    cases hd
  | some nraw =>
    rw [extract_of_name p f nraw hn] at hd
    by_cases hs : pyStrip nraw = ""
    · rw [if_pos hs] at hd; cases hd
    · rw [if_neg hs] at hd
      obtain rfl : builtDict p f nraw = d := Option.some.inj hd
      have hnote := finalize_get_note p (fieldsStage (dset [] "nom" (vStr (pyStrip nraw))) f)
      rw [fieldsStage_get_note] at hnote
      cases hrb : f.ratingBox with
      | none =>
        left
        show dget? (builtDict p f nraw) "note" = some vNone
        unfold builtDict
        rw [hnote, hrb]
        simp [dget?, dset]
      | some rb =>
        cases hrt : rb.ratingText with
        | none =>
          left
          show dget? (builtDict p f nraw) "note" = some vNone
          unfold builtDict
          rw [hnote, hrb]
          simp [hrt, dget?, dset]
        | some rt =>
          right
          refine ⟨rb, rt, rfl, hrt, ?_⟩
          show dget? (builtDict p f nraw) "note" = some (noteValOf rt)
          unfold builtDict
          rw [hnote, hrb]
          simp [hrt]

/-- C8 amended witness: the out-of-range rating "9,9" is stored as the
parsed value of its rating text. -/
theorem c8_amended_rating_witness :
    dget? ((_extract_single_business polEmpty frag99).getD []) "note" = some vNone ∨
    (∃ rb rt, frag99.ratingBox = some rb ∧ rb.ratingText = some rt ∧
      dget? ((_extract_single_business polEmpty frag99).getD []) "note" =
        some (noteValOf rt)) :=
  c8_amended_rating polEmpty frag99 ((_extract_single_business polEmpty frag99).getD [])
    rfl

/-- C9: when a fragment's styled spans contain at least one span whose
style carries a recognised colour marker and whose stripped text is
non-empty, the produced record's open status is the stripped text of the
last such span in document order. -/
theorem c9_status_last_match (p : OverridePolicy) (f : Fragment) (d : Dict)
    (pr : String × String)
    (hd : _extract_single_business p f = some d)
    (hl : f.styledSpans.reverse.find? spanMatches = some pr) :
    dget? d "statut_ouverture" = some (vStr (pyStrip pr.2)) := by
  cases hn : f.nameText with
  | none =>
    rw [extract_none_of_missing_name p f hn] at hd
    cases hd
  | some nraw =>
    rw [extract_of_name p f nraw hn] at hd
    by_cases hs : pyStrip nraw = ""
    · rw [if_pos hs] at hd; cases hd
    · rw [if_neg hs] at hd
      obtain rfl : builtDict p f nraw = d := Option.some.inj hd
      unfold builtDict
      rw [finalize_get_statut, fieldsStage_get_statut, lastStatusText_eq_find_rev, hl]
      rfl

/-- C9 witness: of two matching spans (green "Ouvert" then red
" Fermé "), the later red one provides the status. -/
theorem c9_status_last_match_witness :
    dget? ((_extract_single_business polEmpty fragStatus).getD []) "statut_ouverture" =
      some (vStr (pyStrip " Fermé ")) :=
  c9_status_last_match polEmpty fragStatus
    ((_extract_single_business polEmpty fragStatus).getD [])
    ("color: rgba(220,54,46);", " Fermé ") (by decide) (by decide)

/-- C10: city inference is total and the exception handler unreachable:
for every input string exactly one of the four strategies (postal-code
capture, known-city lookup, last-segment fallback, placeholder) produces
the returned string, in that order. -/
theorem c10_city_inference_total (a : String) :
    (∃ c, cityFromPostal a = some c ∧ _extract_city_from_address a = c) ∨
    (cityFromPostal a = none ∧
      ∃ c, cityFromKnown a = some c ∧ _extract_city_from_address a = c) ∨
    (cityFromPostal a = none ∧ cityFromKnown a = none ∧
      ∃ c, cityFromLast a = some c ∧ _extract_city_from_address a = c) ∨
    (cityFromPostal a = none ∧ cityFromKnown a = none ∧ cityFromLast a = none ∧
      _extract_city_from_address a = "Non spécifiée") := by
  cases h1 : cityFromPostal a with
  | some c =>
    left
    exact ⟨c, rfl, by unfold _extract_city_from_address; rw [h1]⟩
  | none =>
    cases h2 : cityFromKnown a with
    | some c =>
      right; left
      exact ⟨rfl, c, rfl, by unfold _extract_city_from_address; rw [h1, h2]⟩
    | none =>
      cases h3 : cityFromLast a with
      | some c =>
        right; right; left
        exact ⟨rfl, rfl, c, rfl, by unfold _extract_city_from_address; rw [h1, h2, h3]⟩
      | none =>
        right; right; right
        exact ⟨rfl, rfl, rfl, by unfold _extract_city_from_address; rw [h1, h2, h3]⟩
